import Mathlib

/-!
Verification development for the ongoing-game data-orchestration shard
(src/src/main/shards/ongoing-game/index.ts). Pure fragments of the
TypeScript source are shallowly embedded as Lean definitions; each
definition carries a pointer to the source lines it translates.
-/

namespace OngoingGame

/-- Data source of a stored record: the local client API or the remote
aggregation (SGP) API. Source literals in index.ts are the strings
lcu and sgp. -/
inductive Source
  | lcu
  | sgp
deriving DecidableEq

/-- Per-player match-history loading state (state.ts enumeration used via
setMatchHistoryLoadingState in index.ts). -/
inductive LoadingState
  | idle
  | loading
  | loaded
  | aborted
  | error
deriving DecidableEq

/-- Known-safe queue tags, src/src/main/shards/ongoing-game/index.ts
lines 49-61 (static SAFE_TAGS). -/
def SAFE_TAGS : List String :=
  ["q_420", "q_430", "q_440", "q_450", "q_480", "q_490",
   "q_900", "q_1400", "q_1700", "q_1900", "q_2300"]

/-- Field bundle mirroring the static LOADING_PRIORITY object,
index.ts lines 35-44. -/
structure LoadingPriorityTable where
  ADDITIONAL_SUMMONER : Int
  SUMMONER : Int
  MATCH_HISTORY : Int
  SAVED_INFO : Int
  RANKED_STATS : Int
  CHAMPION_MASTERY : Int
  ADDITIONAL_GAME : Int
  GAME_TIMELINE : Int

/-- The LOADING_PRIORITY constants, index.ts lines 35-44. -/
def LOADING_PRIORITY : LoadingPriorityTable :=
  { ADDITIONAL_SUMMONER := -1
    SUMMONER := 6
    MATCH_HISTORY := 5
    SAVED_INFO := 4
    RANKED_STATS := 3
    CHAMPION_MASTERY := 2
    ADDITIONAL_GAME := 2
    GAME_TIMELINE := 1 }

/-- The two p-queue instances of the shard: the match-history queue
(field mhQueue, index.ts line 90) and the general queue (field queue,
line 97). -/
inductive QueueId
  | mhQueue
  | generalQueue
deriving DecidableEq

/-- A p-queue priority: an integer, or the JavaScript value Infinity used
at index.ts line 709. -/
inductive Priority
  | fin (n : Int)
  | inf
deriving DecidableEq

/-- One queue admission: which queue a task is added to and at which
priority. -/
structure Dispatch where
  queue : QueueId
  priority : Priority
deriving DecidableEq

/-- Resolution of the effective source, index.ts lines 626-627:
isAbleToUseSgpApi = useSgpApi AND serversSupported.matchHistory. -/
def isAbleToUseSgpApi (useSgpApi serversSupportedMatchHistory : Bool) : Bool :=
  useSgpApi && serversSupportedMatchHistory

/-- A stored per-player match-history record as committed by
loadPlayerMatchHistory (index.ts lines 674-679 for the SGP path and
733-737 for the LCU path). The games payload is irrelevant to the
verified properties and omitted; tag is none when the record carries no
tag field (LCU records, and untagged SGP records). -/
structure MatchHistoryRecord where
  targetCount : Nat
  source : Source
  tag : Option String
deriving DecidableEq

/-- The requested tag as it is compared by the skip check, index.ts
line 635: a requested tag of all is replaced by undefined before the
strict comparison with the stored tag; anything else (including
undefined and the empty string) is compared as-is. -/
def normRequestedTag (tag : Option String) : Option String :=
  match tag with
  | some t => if t = "all" then none else some t
  | none => none

/-- The skip-if-unchanged check of loadPlayerMatchHistory, index.ts
lines 629-641: skip when not forced, a record exists, the stored
targetCount equals the requested count, the stored source equals the
resolved source, and (SGP only) the stored tag equals the
all-normalized requested tag. -/
def mhShouldSkip (force : Bool) (current : Option MatchHistoryRecord) (count : Nat)
    (sgpApi : Bool) (tag : Option String) : Bool :=
  match current with
  | none => false
  | some c =>
      !force && decide (c.targetCount = count) &&
        decide (c.source = (if sgpApi then Source.sgp else Source.lcu)) &&
        (!sgpApi || decide (normRequestedTag tag = c.tag))

/-- The SGP-path tag normalization of loadPlayerMatchHistory, index.ts
lines 646-653. Input: the requested tag and the current
state.matchHistoryTag. Output: the tag actually sent with the query and
the new state.matchHistoryTag. A falsy tag (undefined or the empty
string) skips the whole block; a truthy tag equal to all or outside
SAFE_TAGS is sent as undefined with the state tag set to all; a
SAFE_TAGS member is sent and stored as given. -/
def mhNormalizeTag (tag : Option String) (stateTag : String) : Option String × String :=
  match tag with
  | some t =>
      if t ≠ "" then
        if t = "all" ∨ t ∉ SAFE_TAGS then (none, "all")
        else (some t, t)
      else (some t, stateTag)
  | none => (none, stateTag)

/-- Fetch outcome of the single queued list fetch of
loadPlayerMatchHistory: the promise resolves with data, rejects with an
AbortError, or rejects with any other error. -/
inductive FetchOutcome
  | success
  | abortError
  | otherError
deriving DecidableEq

/-- The slice of shard state touched by one loadPlayerMatchHistory call
for one player: that player's stored record (state.matchHistory entry),
the shared state.matchHistoryTag, and that player's loading state. -/
structure MHState where
  record : Option MatchHistoryRecord
  stateTag : String
  loadingState : LoadingState
deriving DecidableEq

/-- Observable result of one loadPlayerMatchHistory call: the updated
state slice, how many list-fetch network calls were issued (0 when the
skip check fired, 1 otherwise), and the queue admissions made for the
list fetch. Per-game detail fetches of the LCU path and game-timeline
loads are modelled separately (lcuGameDetailDispatch,
gameTimelineDispatch). -/
structure MHStepResult where
  state : MHState
  networkCalls : Nat
  dispatches : List Dispatch
deriving DecidableEq

/-- Shallow embedding of loadPlayerMatchHistory, index.ts lines 612-743,
for one player. sgpApi is the resolved isAbleToUseSgpApi value;
priorityOverride is the optional options.priority (lines 659 and 691);
outcome resolves the queued list fetch. The SGP path (lines 643-683)
admits the list fetch to the match-history queue, normalizes the tag,
and on success stores a record tagged source sgp with the normalized
tag; the LCU path (lines 684-742) admits the list fetch to the general
queue and on success stores an untagged record tagged source lcu. On an
AbortError the loading state becomes aborted, on any other rejection it
becomes error (handleMatchHistoryError, lines 1271-1280), and no record
is stored. -/
def loadPlayerMatchHistory (st : MHState) (count : Nat) (tag : Option String)
    (force : Bool) (sgpApi : Bool) (priorityOverride : Option Int)
    (outcome : FetchOutcome) : MHStepResult :=
  if mhShouldSkip force st.record count sgpApi tag then
    { state := st, networkCalls := 0, dispatches := [] }
  else if sgpApi then
    let nt := mhNormalizeTag tag st.stateTag
    let d : Dispatch :=
      { queue := QueueId.mhQueue
        priority := Priority.fin (priorityOverride.getD LOADING_PRIORITY.MATCH_HISTORY) }
    match outcome with
    | FetchOutcome.success =>
        { state :=
            { record := some { targetCount := count, source := Source.sgp, tag := nt.1 }
              stateTag := nt.2
              loadingState := LoadingState.loaded }
          networkCalls := 1
          dispatches := [d] }
    | FetchOutcome.abortError =>
        { state := { record := st.record, stateTag := nt.2, loadingState := LoadingState.aborted }
          networkCalls := 1
          dispatches := [d] }
    | FetchOutcome.otherError =>
        { state := { record := st.record, stateTag := nt.2, loadingState := LoadingState.error }
          networkCalls := 1
          dispatches := [d] }
  else
    let d : Dispatch :=
      { queue := QueueId.generalQueue
        priority := Priority.fin (priorityOverride.getD LOADING_PRIORITY.MATCH_HISTORY) }
    match outcome with
    | FetchOutcome.success =>
        { state :=
            { record := some { targetCount := count, source := Source.lcu, tag := none }
              stateTag := st.stateTag
              loadingState := LoadingState.loaded }
          networkCalls := 1
          dispatches := [d] }
    | FetchOutcome.abortError =>
        { state := { record := st.record, stateTag := st.stateTag, loadingState := LoadingState.aborted }
          networkCalls := 1
          dispatches := [d] }
    | FetchOutcome.otherError =>
        { state := { record := st.record, stateTag := st.stateTag, loadingState := LoadingState.error }
          networkCalls := 1
          dispatches := [d] }

/-- Per-game detail fetch inside the LCU match-history path, index.ts
lines 706-710: admitted to the general queue at priority Infinity. -/
def lcuGameDetailDispatch : Dispatch :=
  { queue := QueueId.generalQueue, priority := Priority.inf }

/-- Game-timeline fetch admission, index.ts lines 476-481 (SGP) and
500-505 (LCU): general queue, GAME_TIMELINE priority. -/
def gameTimelineDispatch : Dispatch :=
  { queue := QueueId.generalQueue, priority := Priority.fin LOADING_PRIORITY.GAME_TIMELINE }

/-- Additional-game fetch admission, index.ts lines 561-566 (SGP) and
585-590 (LCU): general queue, ADDITIONAL_GAME priority. -/
def additionalGameDispatch : Dispatch :=
  { queue := QueueId.generalQueue, priority := Priority.fin LOADING_PRIORITY.ADDITIONAL_GAME }

/-- Summoner fetch admission, index.ts lines 761-765: general queue at
options.priority, defaulting to the SUMMONER priority. -/
def summonerDispatch (priorityOverride : Option Int) : Dispatch :=
  { queue := QueueId.generalQueue
    priority := Priority.fin (priorityOverride.getD LOADING_PRIORITY.SUMMONER) }

/-- Saved-info fetch admission, index.ts lines 806-810: general queue at
the SAVED_INFO priority. -/
def savedInfoDispatch : Dispatch :=
  { queue := QueueId.generalQueue, priority := Priority.fin LOADING_PRIORITY.SAVED_INFO }

/-- Ranked-stats fetch admission, index.ts lines 853-857: match-history
queue at options.priority, defaulting to the RANKED_STATS priority. -/
def rankedStatsDispatch (priorityOverride : Option Int) : Dispatch :=
  { queue := QueueId.mhQueue
    priority := Priority.fin (priorityOverride.getD LOADING_PRIORITY.RANKED_STATS) }

/-- Champion-mastery fetch admission, index.ts lines 887-891:
match-history queue at options.priority, defaulting to the
CHAMPION_MASTERY priority. -/
def championMasteryDispatch (priorityOverride : Option Int) : Dispatch :=
  { queue := QueueId.mhQueue
    priority := Priority.fin (priorityOverride.getD LOADING_PRIORITY.CHAMPION_MASTERY) }

/-- Opportunistic summoner loads triggered from a saved-info response,
index.ts lines 826-832: loadPlayerSummoner at the ADDITIONAL_SUMMONER
priority. -/
def savedInfoOpportunisticSummonerDispatch : Dispatch :=
  summonerDispatch (some LOADING_PRIORITY.ADDITIONAL_SUMMONER)

/-- The concurrency reaction handlePQueue, index.ts lines 202-211: one
setting value is written identically to the concurrency of the
match-history queue and of the general queue. Returns the pair
(mhQueue.concurrency, queue.concurrency). -/
def handlePQueue (concurrency : Nat) : Nat × Nat :=
  (concurrency, concurrency)

/-- The seven per-category state maps of the shard at one instant.
Payloads are opaque and represented by Nat; matchHistory, summoner,
rankedStats, savedInfo and championMastery are keyed by puuid (String),
gameTimeline and additionalGame by game id (Nat). -/
structure OgStateMaps where
  matchHistory : List (String × Nat)
  summoner : List (String × Nat)
  rankedStats : List (String × Nat)
  savedInfo : List (String × Nat)
  championMastery : List (String × Nat)
  gameTimeline : List (Nat × Nat)
  additionalGame : List (Nat × Nat)
deriving DecidableEq

/-- The object returned by the getAll IPC call. -/
structure GetAllResult where
  matchHistory : List (String × Nat)
  summoner : List (String × Nat)
  rankedStats : List (String × Nat)
  savedInfo : List (String × Nat)
  championMastery : List (String × Nat)
  gameTimeline : List (Nat × Nat)
  additionalGames : List (Nat × Nat)
deriving DecidableEq

/-- The getAll IPC handler, index.ts lines 920-938, translated field by
field. Line 926 of the source reads
const gameTimeline = toJS(this.state.additionalGame)
so the gameTimeline field of the response is built from the
additionalGame state map, not from the gameTimeline state map. -/
def handleGetAll (s : OgStateMaps) : GetAllResult :=
  { matchHistory := s.matchHistory
    summoner := s.summoner
    rankedStats := s.rankedStats
    savedInfo := s.savedInfo
    championMastery := s.championMastery
    gameTimeline := s.additionalGame
    additionalGames := s.additionalGame }

/-- Concrete state maps exercising getAll: the gameTimeline map is
empty while the additionalGame map holds one entry. -/
def C2state : OgStateMaps :=
  { matchHistory := []
    summoner := []
    rankedStats := []
    savedInfo := []
    championMastery := []
    gameTimeline := []
    additionalGame := [(1, 5)] }

/-- The setMatchHistoryTag IPC handler, index.ts lines 940-945. Input:
the current state.matchHistoryTag and the requested tag. Output: the
new state.matchHistoryTag and whether the debounced match-history
reload was scheduled. -/
def handleSetMatchHistoryTag (currentTag : String) (tag : String) : String × Bool :=
  if tag ∈ SAFE_TAGS ∨ tag = "all" then (tag, true) else (currentTag, false)

/-- Classification of a caught loader rejection as distinguished by the
two error handlers: an Error named AbortError, an axios error with
response status 404, or anything else. -/
inductive ErrKind
  | abortError
  | axios404
  | otherError
deriving DecidableEq

/-- Logger severities used by the two error handlers. -/
inductive LogLevel
  | info
  | warn
deriving DecidableEq

/-- The generic error handler handleError, index.ts lines 1256-1269:
AbortError and 404 are logged at info, everything else at warn; all
branches return undefined so the caller sees no data. -/
def handleError (e : ErrKind) : LogLevel :=
  match e with
  | ErrKind.abortError => LogLevel.info
  | ErrKind.axios404 => LogLevel.info
  | ErrKind.otherError => LogLevel.warn

/-- The match-history error handler handleMatchHistoryError, index.ts
lines 1271-1280: an AbortError sets the loading state to aborted
without logging; every other rejection (there is no 404 case) logs at
warn and sets the loading state to error. Returns the log entry (none
when nothing is logged) and the loading state written. -/
def handleMatchHistoryError (e : ErrKind) : Option LogLevel × LoadingState :=
  match e with
  | ErrKind.abortError => (none, LoadingState.aborted)
  | _ => (some LogLevel.warn, LoadingState.error)

/-- The two load-count settings governed by the onInit change handlers. -/
structure OngoingGameSettings where
  matchHistoryLoadCount : Int
  gameTimelineLoadCount : Int
deriving DecidableEq

/-- The gameTimelineLoadCount change handler, index.ts lines 192-199: a
value in 0..matchHistoryLoadCount is accepted; any other value is
replaced by matchHistoryLoadCount. -/
def onChangeGameTimelineLoadCount (s : OngoingGameSettings) (value : Int) : OngoingGameSettings :=
  if 0 ≤ value ∧ value ≤ s.matchHistoryLoadCount then
    { s with gameTimelineLoadCount := value }
  else
    { s with gameTimelineLoadCount := s.matchHistoryLoadCount }

/-- Modelled from the spec: the settings store (the SetterSettingService
collaborator, whose source is not under src) dispatches every set call
for a field through the change handler registered for that field, per
the Settings Store interface of the spec. -/
def settingSetGameTimelineLoadCount (s : OngoingGameSettings) (value : Int) : OngoingGameSettings :=
  onChangeGameTimelineLoadCount s value

/-- The matchHistoryLoadCount change handler, index.ts lines 169-179: a
value in 1..200 is accepted (an out-of-range value leaves the field
unchanged); afterwards, unconditionally, gameTimelineLoadCount is set
through the settings store to min(value, current gameTimelineLoadCount). -/
def onChangeMatchHistoryLoadCount (s : OngoingGameSettings) (value : Int) : OngoingGameSettings :=
  let s1 := if 1 ≤ value ∧ value ≤ 200 then { s with matchHistoryLoadCount := value } else s
  settingSetGameTimelineLoadCount s1 (min value s.gameTimelineLoadCount)

/-- Modelled from the spec: the two game-keyed result caches
(gameLruMap and gameTimelineLruMap, index.ts lines 69-87) are instances
of the external quick-lru package, whose source is not part of this
repository; per the spec they are bounded maps of capacity maxSize with
least-recently-used eviction triggered on insert over capacity. Keys
are game ids (Nat); payloads are opaque and represented by Nat. The
entries list is kept most-recently-used first. -/
structure LruMap where
  maxSize : Nat
  entries : List (Nat × Nat)
deriving DecidableEq

/-- Resident keys of the cache, most-recently-used first. -/
def LruMap.keys (m : LruMap) : List Nat :=
  m.entries.map Prod.fst

/-- An empty cache of the given capacity (the constructor call at
index.ts lines 69-87 passes maxSize 400). -/
def LruMap.empty (maxSize : Nat) : LruMap :=
  { maxSize := maxSize, entries := [] }

/-- Cache insertion: the key becomes most recently used; any previous
entry for the key is replaced; an insertion that would exceed the
capacity drops the least-recently-used (last) entry. -/
def LruMap.set (m : LruMap) (k v : Nat) : LruMap :=
  { m with entries := ((k, v) :: m.entries.filter (fun e => e.1 ≠ k)).take m.maxSize }

/-- Cache lookup: a hit refreshes the recency of the key. Returns the
payload found and the updated cache. -/
def LruMap.get (m : LruMap) (k : Nat) : Option Nat × LruMap :=
  match m.entries.find? (fun e => e.1 = k) with
  | none => (none, m)
  | some e => (some e.2, { m with entries := e :: m.entries.filter (fun e2 => e2.1 ≠ k) })

/-- Insert a batch of game ids (with payload 0) in order. -/
def lruInsertAll (m : LruMap) (ks : List Nat) : LruMap :=
  ks.foldl (fun acc k => acc.set k 0) m

/-- Modelled from the spec: the analytics recomputation reaction is
registered with a fixed quiet window (index.ts lines 1100-1121 register
it with delay 200); the scheduling itself lives in the mobx and
mobx-utils collaborators, whose source is not under src, and is
modelled from the spec as trailing-edge debouncing. The machine holds
the pending deadline d; each event resets the deadline to its time plus
the window; a deadline that passes before the next event fires. Events
are consumed in time order; the trailing deadline fires at the end. -/
def debounceAux (window : Nat) (d : Nat) : List Nat → List Nat
  | [] => [d]
  | e :: rest =>
      if d < e then d :: debounceAux window (e + window) rest
      else debounceAux window (e + window) rest

/-- Firing times of the debounced recomputation for a time-ordered list
of trigger events. -/
def debounceFirings (window : Nat) : List Nat → List Nat
  | [] => []
  | e :: rest => debounceAux window (e + window) rest

/-- Last element of a nonempty event list, written with an explicit
default so that it recurses structurally. -/
def lastOf (e : Nat) : List Nat → Nat
  | [] => e
  | x :: xs => lastOf x xs

/-- Loader parameters chosen by a generation (the effective source and
tag read from the settings at dispatch time). -/
structure GenParams where
  source : Source
  tag : Option String
deriving DecidableEq

/-- A dispatched loader task: the generation that dispatched it and the
parameters it was dispatched with. -/
structure MHTask where
  gen : Nat
  params : GenParams
deriving DecidableEq

/-- The seven per-category state maps, as commit targets. -/
inductive Category
  | matchHistory
  | summoner
  | rankedStats
  | savedInfo
  | championMastery
  | additionalGame
  | gameTimeline
deriving DecidableEq

/-- Orchestrator state for the generation/cancellation discipline:
the current generation (one generation = one pair of abort controllers,
replaced together at index.ts lines 230-250 and 371-386), the LCU-path
match-history tasks whose list fetch already resolved and whose
per-game detail stage is still pending, and for each category the last
committed entry together with the generation that produced it. -/
structure OrchState where
  currentGen : Nat
  pendingLcu : List MHTask
  committed : Category → Option (Nat × GenParams)

/-- Modelled from the spec: p-queue (an external package) delivers a
result to the awaiting continuation only when the cancellation token of
the task is not aborted; a queued-but-not-started task bound to an
aborted token is dropped and an in-flight task races its abort signal,
so in both cases the awaiting continuation receives an abort rejection
and no data. -/
def queueDeliver (cancelled : Bool) (p : GenParams) : Option GenParams :=
  if cancelled then none else some p

/-- A token of generation g is aborted exactly when a newer generation
has started: handleLoad (index.ts lines 230-250) and clearAndReload
(lines 371-386) abort both current controllers exactly when they create
the fresh pair. -/
def tokenCancelled (s : OrchState) (t : MHTask) : Bool :=
  decide (t.gen ≠ s.currentGen)

/-- Continuation of a single-await loader (the SGP match-history path,
index.ts lines 656-683, and the summoner, ranked-stats,
champion-mastery, saved-info, additional-game and game-timeline
loaders): the rejection handler turns an abort into undefined, the
guard (if no data, return) drops it, and only a delivered result is
committed. -/
def commitResult (s : OrchState) (c : Category) (t : MHTask) : OrchState :=
  match queueDeliver (tokenCancelled s t) t.params with
  | none => s
  | some p =>
      { s with committed := fun c2 => if c2 = c then some (t.gen, p) else s.committed c2 }

/-- Continuation of the LCU match-history path after its second await
(index.ts lines 727-741): once the per-game detail stage settles, the
record is committed to state.matchHistory unconditionally - there is no
re-check of the cancellation token or of the current generation between
the await of Promise.allSettled and the commit. -/
def commitUnconditional (s : OrchState) (c : Category) (t : MHTask) : OrchState :=
  { s with
      committed := fun c2 => if c2 = c then some (t.gen, t.params) else s.committed c2
      pendingLcu := s.pendingLcu.filter (fun t2 => t2 ≠ t) }

/-- Transition relation of the orchestrator, parameterized by the map P
from generations to the loader parameters they dispatch with (a task
dispatched by generation g carries the settings read at dispatch time,
index.ts lines 316-341). Steps: a new generation starts (both tokens
aborted, fresh pair created); a single-await loader task completes and
its result is delivered through the queue guard; the list fetch of an
LCU match-history task is delivered while its generation is current,
leaving its detail stage pending; a pending LCU detail stage settles
and commits unconditionally. -/
inductive OrchStep (P : Nat → GenParams) : OrchState → OrchState → Prop
  | newGen (s : OrchState) :
      OrchStep P s { s with currentGen := s.currentGen + 1 }
  | sgpComplete (s : OrchState) (c : Category) (t : MHTask) :
      t.gen ≤ s.currentGen → t.params = P t.gen →
      OrchStep P s (commitResult s c t)
  | lcuListDelivered (s : OrchState) (t : MHTask) :
      t.gen = s.currentGen → t.params = P t.gen →
      OrchStep P s { s with pendingLcu := t :: s.pendingLcu }
  | lcuFinish (s : OrchState) (t : MHTask) :
      t ∈ s.pendingLcu →
      OrchStep P s (commitUnconditional s Category.matchHistory t)

/-- Generation parameter map of the concrete failing run: generation 0
dispatches with the local source and no tag, generation 1 with the
remote source and tag q_420. -/
def C1P : Nat → GenParams :=
  fun g => if g = 0 then { source := Source.lcu, tag := none }
           else { source := Source.sgp, tag := some "q_420" }

/-- The generation-0 LCU match-history task of the failing run. -/
def C1taskLcu : MHTask :=
  { gen := 0, params := { source := Source.lcu, tag := none } }

/-- The generation-1 SGP match-history task of the failing run. -/
def C1taskSgp : MHTask :=
  { gen := 1, params := { source := Source.sgp, tag := some "q_420" } }

/-- Initial orchestrator state of the failing run. -/
def C1s0 : OrchState :=
  { currentGen := 0, pendingLcu := [], committed := fun _ => none }

/-- State after the generation-0 LCU list fetch is delivered. -/
def C1s1 : OrchState :=
  { C1s0 with pendingLcu := [C1taskLcu] }

/-- State after generation 1 starts (both tokens of generation 0
aborted, fresh pair created). -/
def C1s2 : OrchState :=
  { C1s1 with currentGen := 1 }

/-- State after the generation-1 SGP match-history task commits. -/
def C1s3 : OrchState :=
  commitResult C1s2 Category.matchHistory C1taskSgp

/-- Final state: the pending generation-0 LCU detail stage settles and
its record is committed after generation 1 has started and committed. -/
def C1s4 : OrchState :=
  commitUnconditional C1s3 Category.matchHistory C1taskLcu

theorem safeTags_ne_all : ∀ t ∈ SAFE_TAGS, t ≠ "all" := by decide

theorem safeTags_ne_empty : ∀ t ∈ SAFE_TAGS, t ≠ "" := by decide

/-- Claim C2: the getAll IPC query is claimed to return, for every
category, the current contents of that category state map. Evaluated at
a state whose gameTimeline map is empty while additionalGame holds one
entry, the returned gameTimeline field equals the additionalGame map
and differs from the gameTimeline map: index.ts line 926 builds the
gameTimeline field from state.additionalGame. -/
theorem C2_getAll_bug :
    (handleGetAll C2state).gameTimeline = [(1, 5)] ∧
    C2state.gameTimeline = [] ∧
    (handleGetAll C2state).gameTimeline ≠ C2state.gameTimeline := by
  refine ⟨rfl, rfl, ?_⟩
  decide

/-- Claim C10: the setMatchHistoryTag IPC call leaves the stored tag
unchanged and schedules no reload for every tag that is neither all nor
a member of the known-safe tag set, and updates the stored tag and
schedules the debounced reload exactly for all or an allow-listed
tag. -/
theorem C10_set_tag_guard (cur tag : String) :
    (tag ∉ SAFE_TAGS → tag ≠ "all" → handleSetMatchHistoryTag cur tag = (cur, false)) ∧
    (tag ∈ SAFE_TAGS ∨ tag = "all" → handleSetMatchHistoryTag cur tag = (tag, true)) := by
  unfold handleSetMatchHistoryTag
  constructor
  · intro h1 h2
    rw [if_neg]
    rintro (h | h)
    · exact h1 h
    · exact h2 h
  · intro h
    rw [if_pos h]

/-- Witness for C10 at the concrete tags bogus (rejected, no reload) and
q_420 (accepted, reload scheduled). -/
theorem C10_set_tag_witness :
    handleSetMatchHistoryTag "all" "bogus" = ("all", false) ∧
    handleSetMatchHistoryTag "all" "q_420" = ("q_420", true) :=
  ⟨(C10_set_tag_guard "all" "bogus").1 (by decide) (by decide),
   (C10_set_tag_guard "all" "q_420").2 (Or.inl (by decide))⟩

/-- Counterexample to claim C6 as stated: in the match-history error
handler a not-found (404) rejection is logged at warn and drives the
error loading state; it is not info-level benign absence. -/
theorem C6_error_counterexample :
    handleMatchHistoryError ErrKind.axios404 = (some LogLevel.warn, LoadingState.error) ∧
    (handleMatchHistoryError ErrKind.axios404).1 ≠ some LogLevel.info := by
  refine ⟨rfl, ?_⟩
  decide

/-- Claim C6 (amended): the general handler logs aborts and not-found at
info and everything else at warn; the match-history handler sets the
loading state to aborted on abort without logging anything (so an abort
is never logged as a failure and never yields the error state), and
treats every non-abort rejection, including not-found, as warn plus the
error loading state. -/
theorem C6_error_taxonomy :
    handleError ErrKind.abortError = LogLevel.info ∧
    handleError ErrKind.axios404 = LogLevel.info ∧
    handleError ErrKind.otherError = LogLevel.warn ∧
    handleMatchHistoryError ErrKind.abortError = (none, LoadingState.aborted) ∧
    (∀ e, e ≠ ErrKind.abortError →
      handleMatchHistoryError e = (some LogLevel.warn, LoadingState.error)) ∧
    (∀ e, (handleMatchHistoryError e).2 = LoadingState.error → e ≠ ErrKind.abortError) := by
  refine ⟨rfl, rfl, rfl, rfl, ?_, ?_⟩
  · intro e h
    cases e with
    | abortError => exact absurd rfl h
    | axios404 => rfl
    | otherError => rfl
  · intro e h
    cases e with
    | abortError => exact absurd h (by decide)
    | axios404 => decide
    | otherError => decide

/-- Witness for C6 applying the non-abort clause at a generic transient
error. -/
theorem C6_error_witness :
    handleMatchHistoryError ErrKind.otherError = (some LogLevel.warn, LoadingState.error) :=
  C6_error_taxonomy.2.2.2.2.1 ErrKind.otherError (by decide)

/-- Claim C7: after every change to either load-count setting through
its registered change handler, gameTimelineLoadCount is at most
matchHistoryLoadCount. -/
theorem C7_clamp_invariant (s : OngoingGameSettings) (v : Int) :
    (onChangeMatchHistoryLoadCount s v).gameTimelineLoadCount ≤
      (onChangeMatchHistoryLoadCount s v).matchHistoryLoadCount ∧
    (onChangeGameTimelineLoadCount s v).gameTimelineLoadCount ≤
      (onChangeGameTimelineLoadCount s v).matchHistoryLoadCount := by
  constructor
  · unfold onChangeMatchHistoryLoadCount settingSetGameTimelineLoadCount
      onChangeGameTimelineLoadCount
    dsimp only
    split <;> split <;> (simp; try omega)
  · unfold onChangeGameTimelineLoadCount
    split <;> (simp; try omega)

/-- Counterexample to claim C3 as stated: two identical force=false
remote-source calls with the out-of-allow-list tag q_9999 both issue
the network call (two calls in total, not exactly one), because the
first call stores the tag normalized to undefined while the skip check
of the second call compares the raw requested tag against the stored
one. -/
theorem C3_skip_counterexample :
    (loadPlayerMatchHistory
        { record := none, stateTag := "all", loadingState := LoadingState.idle }
        20 (some "q_9999") false true none FetchOutcome.success).networkCalls +
      (loadPlayerMatchHistory
        (loadPlayerMatchHistory
          { record := none, stateTag := "all", loadingState := LoadingState.idle }
          20 (some "q_9999") false true none FetchOutcome.success).state
        20 (some "q_9999") false true none FetchOutcome.success).networkCalls = 2 := by
  decide

/-- Claim C3 (amended): the loader skips the network call if and only if
force is false, a stored record exists, its targetCount equals the
requested count, its source equals the resolved source, and (remote
only) its stored tag equals the requested tag after normalizing a
request of all to untagged. Hence two identical force=false remote
calls whose tag is absent, all, or in the allow-list perform exactly
one network call, while a resolved-source switch always triggers a
refetch. -/
theorem C3_skip_if_unchanged :
    (∀ (force : Bool) (current : Option MatchHistoryRecord) (count : Nat)
        (sgp : Bool) (tag : Option String),
        mhShouldSkip force current count sgp tag = true ↔
          (force = false ∧ ∃ c, current = some c ∧ c.targetCount = count ∧
            c.source = (if sgp then Source.sgp else Source.lcu) ∧
            (sgp = true → c.tag = normRequestedTag tag))) ∧
    (∀ (st : MHState) (count : Nat) (tag : Option String),
        st.record = none →
        (tag = none ∨ tag = some "all" ∨ ∃ t, tag = some t ∧ t ∈ SAFE_TAGS) →
        (loadPlayerMatchHistory st count tag false true none
            FetchOutcome.success).networkCalls = 1 ∧
        (loadPlayerMatchHistory
            (loadPlayerMatchHistory st count tag false true none FetchOutcome.success).state
            count tag false true none FetchOutcome.success).networkCalls = 0) ∧
    (∀ (st : MHState) (count : Nat) (tag : Option String) (force : Bool)
        (sgp : Bool) (o : FetchOutcome) (c : MatchHistoryRecord),
        st.record = some c →
        c.source ≠ (if sgp then Source.sgp else Source.lcu) →
        (loadPlayerMatchHistory st count tag force sgp none o).networkCalls = 1) := by
  refine ⟨?_, ?_, ?_⟩
  · intro force current count sgp tag
    cases current with
    | none => simp [mhShouldSkip]
    | some c =>
        cases sgp with
        | false =>
            simp [mhShouldSkip, Bool.and_eq_true, decide_eq_true_eq, Bool.not_eq_true']
            tauto
        | true =>
            simp [mhShouldSkip, Bool.and_eq_true, decide_eq_true_eq, Bool.not_eq_true']
            constructor
            · rintro ⟨⟨⟨h1, h2⟩, h3⟩, h4⟩
              exact ⟨h1, h2, h3, h4.symm⟩
            · rintro ⟨h1, h2, h3, h4⟩
              exact ⟨⟨⟨h1, h2⟩, h3⟩, h4.symm⟩
  · intro st count tag hrec htag
    have hskip1 : mhShouldSkip false st.record count true tag = false := by
      rw [hrec]; rfl
    rcases htag with rfl | rfl | ⟨t, rfl, ht⟩
    · constructor
      · simp [loadPlayerMatchHistory, hskip1]
      · simp [loadPlayerMatchHistory, hskip1, hrec, mhShouldSkip, mhNormalizeTag,
          normRequestedTag]
    · constructor
      · simp [loadPlayerMatchHistory, hskip1]
      · simp [loadPlayerMatchHistory, hskip1, hrec, mhShouldSkip, mhNormalizeTag,
          normRequestedTag]
    · have h1 : t ≠ "all" := safeTags_ne_all t ht
      have h2 : t ≠ "" := safeTags_ne_empty t ht
      constructor
      · simp [loadPlayerMatchHistory, hskip1]
      · simp [loadPlayerMatchHistory, hskip1, hrec, mhShouldSkip, mhNormalizeTag,
          normRequestedTag, h1, h2, ht]
  · intro st count tag force sgp o c hrec hsrc
    have hskip : mhShouldSkip force st.record count sgp tag = false := by
      rw [hrec]
      simp [mhShouldSkip, decide_eq_false hsrc]
    cases sgp with
    | false =>
        cases o <;> simp [loadPlayerMatchHistory, hskip]
    | true =>
        cases o <;> simp [loadPlayerMatchHistory, hskip]

/-- Witness for C3: two identical remote calls with the allow-listed
tag q_420 from an empty record perform exactly one network call. -/
theorem C3_skip_witness :
    (loadPlayerMatchHistory
        { record := none, stateTag := "all", loadingState := LoadingState.idle }
        20 (some "q_420") false true none FetchOutcome.success).networkCalls = 1 ∧
    (loadPlayerMatchHistory
        (loadPlayerMatchHistory
          { record := none, stateTag := "all", loadingState := LoadingState.idle }
          20 (some "q_420") false true none FetchOutcome.success).state
        20 (some "q_420") false true none FetchOutcome.success).networkCalls = 0 :=
  C3_skip_if_unchanged.2.1
    { record := none, stateTag := "all", loadingState := LoadingState.idle }
    20 (some "q_420") rfl (Or.inr (Or.inr ⟨"q_420", rfl, by decide⟩))

/-- Counterexample to claim C4 as stated: the empty-string tag is
outside the allow-list, yet the loader leaves the stored tag unchanged
(here q_420 instead of all), because the normalization block only runs
for a truthy tag. -/
theorem C4_tag_counterexample :
    "" ∉ SAFE_TAGS ∧ ("" : String) ≠ "all" ∧
    (loadPlayerMatchHistory
        { record := none, stateTag := "q_420", loadingState := LoadingState.idle }
        20 (some "") false true none FetchOutcome.success).state.stateTag = "q_420" ∧
    (loadPlayerMatchHistory
        { record := none, stateTag := "q_420", loadingState := LoadingState.idle }
        20 (some "") false true none FetchOutcome.success).state.stateTag ≠ "all" := by
  refine ⟨by decide, by decide, rfl, by decide⟩

/-- Claim C4 (amended): for every nonempty requested tag outside the
allow-list the remote-path loader stores the tag all and issues the
query untagged (the committed record carries no tag); allow-listed tags
are stored as given; the empty-string tag is falsy in the source and is
treated as no tag, leaving the stored tag unchanged. -/
theorem C4_tag_normalization :
    (∀ (t : String) (stateTag : String), t ≠ "" → t ∉ SAFE_TAGS →
        mhNormalizeTag (some t) stateTag = (none, "all")) ∧
    (∀ (t : String) (stateTag : String), t ∈ SAFE_TAGS →
        mhNormalizeTag (some t) stateTag = (some t, t)) ∧
    (∀ (st : MHState) (count : Nat) (t : String),
        t ≠ "" → t ∉ SAFE_TAGS → st.record = none →
        (loadPlayerMatchHistory st count (some t) false true none
            FetchOutcome.success).state.stateTag = "all" ∧
        (loadPlayerMatchHistory st count (some t) false true none
            FetchOutcome.success).state.record =
          some { targetCount := count, source := Source.sgp, tag := none }) := by
  refine ⟨?_, ?_, ?_⟩
  · intro t stateTag h1 h2
    simp [mhNormalizeTag, h1, h2]
  · intro t stateTag ht
    have h1 : t ≠ "all" := safeTags_ne_all t ht
    have h2 : t ≠ "" := safeTags_ne_empty t ht
    simp [mhNormalizeTag, h1, h2, ht]
  · intro st count t h1 h2 hrec
    have hskip : mhShouldSkip false st.record count true (some t) = false := by
      rw [hrec]; rfl
    constructor
    · simp [loadPlayerMatchHistory, hskip, mhNormalizeTag, h1, h2]
    · simp [loadPlayerMatchHistory, hskip, mhNormalizeTag, h1, h2]

/-- Witness for C4 at the concrete unsafe tag q_9999. -/
theorem C4_tag_witness :
    mhNormalizeTag (some "q_9999") "all" = (none, "all") :=
  C4_tag_normalization.1 "q_9999" "all" (by decide) (by decide)

/-- Counterexample to claim C5 as stated: a local-source match-history
list fetch is admitted to the general queue, not to the match-history
queue (index.ts line 688 uses the general queue for the LCU path). -/
theorem C5_queue_counterexample :
    (loadPlayerMatchHistory
        { record := none, stateTag := "all", loadingState := LoadingState.idle }
        20 none false false none FetchOutcome.success).dispatches =
      [{ queue := QueueId.generalQueue, priority := Priority.fin 5 }] ∧
    QueueId.generalQueue ≠ QueueId.mhQueue := by
  refine ⟨rfl, by decide⟩

/-- Claim C5 (amended): remote-path match-history, ranked-stats and
champion-mastery tasks are admitted to the match-history queue;
local-path match-history list fetches (and their per-game detail
fetches, at unbounded priority) go to the general queue, as do
summoner, saved-info, additional-game and game-timeline tasks; the
default priorities are summoner 6, match-history 5, saved-info 4,
ranked-stats 3, champion-mastery and additional-game 2, game-timeline
1, opportunistic additional summoner -1; and one concurrency setting is
applied identically to both queues. -/
theorem C5_queue_assignment :
    (∀ (st : MHState) (count : Nat) (tag : Option String) (force : Bool)
        (pOv : Option Int) (o : FetchOutcome),
        mhShouldSkip force st.record count true tag = false →
        (loadPlayerMatchHistory st count tag force true pOv o).dispatches =
          [{ queue := QueueId.mhQueue,
             priority := Priority.fin (pOv.getD LOADING_PRIORITY.MATCH_HISTORY) }]) ∧
    (∀ (st : MHState) (count : Nat) (tag : Option String) (force : Bool)
        (pOv : Option Int) (o : FetchOutcome),
        mhShouldSkip force st.record count false tag = false →
        (loadPlayerMatchHistory st count tag force false pOv o).dispatches =
          [{ queue := QueueId.generalQueue,
             priority := Priority.fin (pOv.getD LOADING_PRIORITY.MATCH_HISTORY) }]) ∧
    LOADING_PRIORITY.SUMMONER = 6 ∧
    LOADING_PRIORITY.MATCH_HISTORY = 5 ∧
    LOADING_PRIORITY.SAVED_INFO = 4 ∧
    LOADING_PRIORITY.RANKED_STATS = 3 ∧
    LOADING_PRIORITY.CHAMPION_MASTERY = 2 ∧
    LOADING_PRIORITY.ADDITIONAL_GAME = 2 ∧
    LOADING_PRIORITY.GAME_TIMELINE = 1 ∧
    LOADING_PRIORITY.ADDITIONAL_SUMMONER = -1 ∧
    summonerDispatch none = { queue := QueueId.generalQueue, priority := Priority.fin 6 } ∧
    rankedStatsDispatch none = { queue := QueueId.mhQueue, priority := Priority.fin 3 } ∧
    championMasteryDispatch none = { queue := QueueId.mhQueue, priority := Priority.fin 2 } ∧
    savedInfoDispatch = { queue := QueueId.generalQueue, priority := Priority.fin 4 } ∧
    additionalGameDispatch = { queue := QueueId.generalQueue, priority := Priority.fin 2 } ∧
    gameTimelineDispatch = { queue := QueueId.generalQueue, priority := Priority.fin 1 } ∧
    savedInfoOpportunisticSummonerDispatch =
      { queue := QueueId.generalQueue, priority := Priority.fin (-1) } ∧
    lcuGameDetailDispatch = { queue := QueueId.generalQueue, priority := Priority.inf } ∧
    (∀ c : Nat, handlePQueue c = (c, c)) := by
  refine ⟨?_, ?_, rfl, rfl, rfl, rfl, rfl, rfl, rfl, rfl, rfl, rfl, rfl, rfl, rfl, rfl,
    rfl, rfl, fun c => rfl⟩
  · intro st count tag force pOv o hskip
    cases o <;> simp [loadPlayerMatchHistory, hskip]
  · intro st count tag force pOv o hskip
    cases o <;> simp [loadPlayerMatchHistory, hskip]

/-- Witness for C5: a remote match-history call from an empty record is
admitted to the match-history queue at the default priority 5. -/
theorem C5_queue_witness :
    (loadPlayerMatchHistory
        { record := none, stateTag := "all", loadingState := LoadingState.idle }
        20 none false true none FetchOutcome.success).dispatches =
      [{ queue := QueueId.mhQueue, priority := Priority.fin 5 }] :=
  C5_queue_assignment.1
    { record := none, stateTag := "all", loadingState := LoadingState.idle }
    20 none false none FetchOutcome.success rfl

theorem lru_filter_fresh (m : LruMap) (k : Nat) (hk : k ∉ m.keys) :
    m.entries.filter (fun e => e.1 ≠ k) = m.entries := by
  apply List.filter_eq_self.mpr
  intro e he
  simp only [decide_eq_true_eq]
  intro hek
  exact hk (by rw [← hek]; exact List.mem_map_of_mem Prod.fst he)

theorem lru_set_keys_subset (m : LruMap) (k v : Nat) :
    (m.set k v).keys ⊆ k :: m.keys := by
  intro a ha
  simp only [LruMap.set, LruMap.keys, List.mem_map] at ha
  rcases ha with ⟨e, he, rfl⟩
  have he2 := List.take_subset _ _ he
  rcases List.mem_cons.mp he2 with rfl | h3
  · exact List.mem_cons_self _ _
  · exact List.mem_cons_of_mem _
      (List.mem_map_of_mem Prod.fst ((List.filter_sublist m.entries).subset h3))

theorem lru_set_length_fresh (m : LruMap) (k v : Nat) (hk : k ∉ m.keys) :
    (m.set k v).entries.length = min (m.entries.length + 1) m.maxSize := by
  simp only [LruMap.set]
  rw [lru_filter_fresh m k hk, List.length_take, List.length_cons]
  omega

theorem lruInsertAll_length (ks : List Nat) :
    ∀ m : LruMap, ks.Nodup → (∀ k ∈ ks, k ∉ m.keys) →
      m.entries.length ≤ m.maxSize →
      (lruInsertAll m ks).entries.length = min (m.entries.length + ks.length) m.maxSize := by
  induction ks with
  | nil =>
      intro m _ _ h3
      simp [lruInsertAll]
      omega
  | cons k rest ih =>
      intro m h1 h2 h3
      have hk : k ∉ m.keys := h2 k (List.mem_cons_self _ _)
      have hrest : rest.Nodup := (List.nodup_cons.mp h1).2
      have hknr : k ∉ rest := (List.nodup_cons.mp h1).1
      have hfresh : ∀ k2 ∈ rest, k2 ∉ (m.set k 0).keys := by
        intro k2 hk2 hmem
        rcases List.mem_cons.mp (lru_set_keys_subset m k 0 hmem) with rfl | h
        · exact hknr hk2
        · exact h2 k2 (List.mem_cons_of_mem _ hk2) h
      have hlen := lru_set_length_fresh m k 0 hk
      have hms : (m.set k 0).maxSize = m.maxSize := rfl
      have hle : (m.set k 0).entries.length ≤ (m.set k 0).maxSize := by
        rw [hlen]
        exact min_le_right _ _
      have hrec := ih (m.set k 0) hrest hfresh hle
      have hfold : lruInsertAll m (k :: rest) = lruInsertAll (m.set k 0) rest := rfl
      rw [hfold, hrec, hms, hlen]
      simp only [List.length_cons]
      omega

/-- Claim C8: every insertion keeps the cache within its capacity;
inserting 401 distinct game ids into an empty capacity-400 cache
leaves exactly 400 resident entries; and an insertion of a fresh key
into a full cache keeps every entry except the least-recently-used
(last) one, which is evicted, the fresh key becoming most recent. -/
theorem C8_lru_bound :
    (∀ (m : LruMap) (k v : Nat), (m.set k v).entries.length ≤ m.maxSize) ∧
    (lruInsertAll (LruMap.empty 400) (List.range 401)).entries.length = 400 ∧
    (∀ (m : LruMap) (k v : Nat) (l : List (Nat × Nat)) (e : Nat × Nat),
        m.entries = l ++ [e] → l.length + 1 = m.maxSize → k ∉ m.keys →
        (m.set k v).entries = (k, v) :: l) := by
  refine ⟨?_, ?_, ?_⟩
  · intro m k v
    simp only [LruMap.set]
    rw [List.length_take]
    exact min_le_left _ _
  · have h := lruInsertAll_length (List.range 401) (LruMap.empty 400) (List.nodup_range 401)
      (by intro k _; simp [LruMap.empty, LruMap.keys]) (by simp [LruMap.empty])
    rw [h, List.length_range]
    decide
  · intro m k v l e hme hlen hk
    simp only [LruMap.set]
    rw [lru_filter_fresh m k hk, hme, ← hlen, List.take_succ_cons, List.take_left]

/-- Witness for C8: inserting the fresh key 3 into a full capacity-2
cache holding keys 1 (most recent) and 2 (least recent) evicts exactly
key 2. -/
theorem C8_lru_witness :
    (LruMap.set { maxSize := 2, entries := [(1, 0), (2, 0)] } 3 5).entries = [(3, 5), (1, 0)] :=
  C8_lru_bound.2.2 { maxSize := 2, entries := [(1, 0), (2, 0)] } 3 5 [(1, 0)] (2, 0) rfl rfl
    (by decide)

theorem debounceAux_burst (window : Nat) :
    ∀ (rest : List Nat) (e : Nat),
      List.Chain' (fun a b => a ≤ b ∧ b ≤ a + window) (e :: rest) →
      debounceAux window (e + window) rest = [lastOf e rest + window] := by
  intro rest
  induction rest with
  | nil =>
      intro e _
      simp [debounceAux, lastOf]
  | cons x xs ih =>
      intro e h
      rcases List.chain'_cons.mp h with ⟨⟨h1, h2⟩, h3⟩
      simp only [debounceAux, lastOf]
      rw [if_neg (by omega)]
      exact ih x h3

/-- Claim C9: a nonempty burst of recompute triggers in which every
event arrives no later than its predecessor plus the quiet window
produces exactly one firing of the debounced recomputation, scheduled
at the last event plus the window. -/
theorem C9_debounce_single_flight (window : Nat) (events : List Nat)
    (h1 : events ≠ [])
    (h2 : List.Chain' (fun a b => a ≤ b ∧ b ≤ a + window) events) :
    debounceFirings window events = [lastOf 0 events + window] := by
  cases events with
  | nil => exact absurd rfl h1
  | cons e rest =>
      simp only [debounceFirings, lastOf]
      exact debounceAux_burst window rest e h2

/-- Witness for C9: five completions at times 0, 10, 20, 30, 40 (all
within 50 time units) with a 200-unit window fire exactly once, at
time 240. -/
theorem C9_debounce_witness :
    debounceFirings 200 [0, 10, 20, 30, 40] = [240] := by
  have h := C9_debounce_single_flight 200 [0, 10, 20, 30, 40] (by decide)
    (by norm_num [List.chain'_cons, List.chain'_singleton])
  simpa [lastOf] using h

/-- Claim C1: the code is claimed never to commit a generation-G1
result after a newer generation G2 has started, the final committed
match-history source and tag matching the parameters of G2. The LCU
match-history path falsifies this: in the exhibited run, the list fetch
of a generation-0 local-source task is delivered while generation 0 is
current, generation 1 (remote source, tag q_420) then starts and
commits its own match-history record, and finally the pending detail
stage of the generation-0 task settles and commits its generation-0
record unconditionally (index.ts lines 727-741 contain no staleness
re-check after the second await), leaving a generation-0 local-source
record as the final committed match history. -/
theorem C1_stale_commit_bug :
    Relation.ReflTransGen (OrchStep C1P) C1s0 C1s4 ∧
    C1s4.currentGen = 1 ∧
    C1s4.committed Category.matchHistory =
      some (0, { source := Source.lcu, tag := none }) ∧
    C1s3.committed Category.matchHistory =
      some (1, { source := Source.sgp, tag := some "q_420" }) ∧
    (C1P 1).source = Source.sgp := by
  refine ⟨?_, rfl, ?_, ?_, rfl⟩
  · have st1 : OrchStep C1P C1s0 C1s1 :=
      OrchStep.lcuListDelivered C1s0 C1taskLcu rfl rfl
    have st2 : OrchStep C1P C1s1 C1s2 :=
      OrchStep.newGen C1s1
    have st3 : OrchStep C1P C1s2 C1s3 :=
      OrchStep.sgpComplete C1s2 Category.matchHistory C1taskSgp (le_refl 1) rfl
    have st4 : OrchStep C1P C1s3 C1s4 :=
      OrchStep.lcuFinish C1s3 C1taskLcu (by decide)
    exact Relation.ReflTransGen.tail
      (Relation.ReflTransGen.tail
        (Relation.ReflTransGen.tail (Relation.ReflTransGen.single st1) st2) st3) st4
  · decide
  · decide

end OngoingGame
